import Mathlib

/-!
Shallow embedding of the speaking-session WebSocket client of the
learn-english repository, covering
`src/frontend/src/components/Speak/WSClient.ts` and
`src/frontend/src/components/Speak/SpeakSession.tsx`.

Stateful TypeScript is modelled as explicit state passing: every
operation maps a state to a new state together with a list of `Eff`
trace items recording observable actions (socket creation, messages
written to the socket, scheduled reconnections, callback-invocation
sites reached, console output, recorder control).  A `cb…` effect means
control reached the corresponding `if (this.onX) this.onX(...)`
invocation site; the registered handler runs at that point.
JavaScript runtime behaviour that matters is modelled explicitly:
`x || d` defaulting treats `0`, `""`, `null` and `undefined` as falsy,
and optional / possibly-absent JSON fields are `Option`s.
-/

namespace LearnEnglish

/-- Extra JSON fields of a decoded object beyond the typed ones;
`JSON.parse` keeps them and the dispatch code never reads them. -/
abbrev Extras := List (String × String)

/-- Model of `SessionConfig` from WSClient.ts: `{subject, speak_time, type}`. -/
structure SessionConfig where
  subject : String
  speak_time : Int
  type : String
  deriving Repr, DecidableEq

/-- Client-to-server messages, one constructor per object literal the
client ever passes to `sendMessage` (WSClient.ts lines 172-203). -/
inductive WSOutgoingMessage where
  | start (config : SessionConfig)
  | audio (sequence : Int) (payload_b64 : String)
  | stop (session_id : String)
  | ping
  deriving Repr, DecidableEq

/-- The JSON keys `JSON.stringify` emits for each outgoing message,
in the order the object literals list them. -/
def WSOutgoingMessage.jsonFields : WSOutgoingMessage → List String
  | .start _ => ["type", "config"]
  | .audio _ _ => ["type", "sequence", "payload_b64"]
  | .stop _ => ["type", "session_id"]
  | .ping => ["type"]

/-- The value of the `type` field of an outgoing message. -/
def WSOutgoingMessage.typeName : WSOutgoingMessage → String
  | .start _ => "start"
  | .audio _ _ => "audio"
  | .stop _ => "stop"
  | .ping => "ping"

/-- Payload of a `final` server message (speak.types.ts `WSFinalMessage`;
the evaluation result is carried opaquely in `extras`). -/
structure WSFinalMessage where
  session_id : String
  transcript : String
  tts_url : Option String
  extras : Extras
  deriving Repr, DecidableEq

/-- A decoded inbound JSON object, discriminated on its `type` field as
`handleMessage` does.  Fields the dispatch code reads are typed; the
`unknown` constructor is any object whose `type` is none of the five
known tags (the `default` branch of the switch). -/
inductive WSIncomingMessage where
  | ack (session_id : String) (max_duration : Option Int) (extras : Extras)
  | interim (session_id : Option String) (transcript : Option String) (extras : Extras)
  | processing (session_id : Option String) (stage : Option String) (extras : Extras)
  | final (msg : WSFinalMessage)
  | error (code : Option Int) (message : Option String) (extras : Extras)
  | unknown (typeName : String) (extras : Extras)
  deriving Repr, DecidableEq

/-- Replace the untyped extra fields of a decoded message. -/
def WSIncomingMessage.setExtras : WSIncomingMessage → Extras → WSIncomingMessage
  | .ack sid md _, ex => .ack sid md ex
  | .interim sid t _, ex => .interim sid t ex
  | .processing sid st _, ex => .processing sid st ex
  | .final m, ex => .final { m with extras := ex }
  | .error c msg _, ex => .error c msg ex
  | .unknown n _, ex => .unknown n ex

/-- Model of `WebSocket.readyState` values. -/
inductive ReadyState where
  | CONNECTING | OPEN | CLOSING | CLOSED
  deriving Repr, DecidableEq

/-- Observable actions of the client and the SpeakSession component. -/
inductive Eff where
  | socketCreated (url : String)
  | socketClose (code : Nat)
  | wsSent (m : WSOutgoingMessage)
  | scheduledReconnect (attempt : Nat) (delayMs : Nat)
  | cbOpen
  | cbClose (code : Nat)
  | cbError
  | cbMessage (m : WSIncomingMessage)
  | cbAck (session_id : String) (max_duration : Option Int) (extras : Extras)
  | cbInterim (session_id : Option String) (transcript : Option String) (extras : Extras)
  | cbProcessing (session_id : Option String) (stage : Option String) (extras : Extras)
  | cbFinal (m : WSFinalMessage)
  | logError (s : String)
  | logWarn (s : String)
  | logInfo (s : String)
  | recorderStart
  | recorderStop
  | audioChunkCall (payload_b64 : String) (sequence : Nat)
  | propOnError
  | propOnSessionComplete (m : WSFinalMessage)
  deriving Repr, DecidableEq

/-- JavaScript truthiness of a possibly-null string: `!s` is true
exactly when the string is `null`/`undefined` or empty. -/
def jsFalsyStr : Option String → Bool
  | none => true
  | some s => s = ""

/-- JavaScript `x || null` on a possibly-undefined string: empty collapses to null. -/
def jsStrOrNull : Option String → Option String
  | none => none
  | some s => if s = "" then none else some s

/-- JavaScript `message.max_duration || 60`: absent and `0` both default to 60. -/
def jsOrSixty : Option Int → Int
  | none => 60
  | some d => if d = 0 then 60 else d

/-- Mutable fields of a `WSClient` instance (WSClient.ts lines 22-41);
`ws` is `none` when `this.ws` is null, otherwise the socket with its
current `readyState`. -/
structure WSClientState where
  ws : Option ReadyState
  reconnectAttempts : Nat
  isConnected : Bool
  heartbeatOn : Bool
  sessionId : Option String
  token : Option String
  deriving Repr, DecidableEq

/-- Field initializers of `class WSClient`. -/
def WSClientState.init : WSClientState :=
  { ws := none, reconnectAttempts := 0, isConnected := false,
    heartbeatOn := false, sessionId := none, token := none }

/-- The constant `maxReconnectAttempts = 5`. -/
def maxReconnectAttempts : Nat := 5

/-- The constant `reconnectDelay = 1000` milliseconds. -/
def reconnectDelay : Nat := 1000

/-- Default of `process.env.REACT_APP_WS_URL`. -/
def wsBaseUrl : String := "ws://localhost:8000"

/-- The `wsUrl` ternary in `connect`: the session id is appended only
when the argument is truthy (present and non-empty). -/
def mkWsUrl (token : String) (sessionId : Option String) : String :=
  match sessionId with
  | some sid =>
      if sid = "" then wsBaseUrl ++ "/ws/speak?token=" ++ token
      else wsBaseUrl ++ "/ws/speak?token=" ++ token ++ "&session_id=" ++ sid
  | none => wsBaseUrl ++ "/ws/speak?token=" ++ token

/-- Model of `connect(token, sessionId?)` (WSClient.ts lines 43-66).
`ctorFails` models the `new WebSocket(wsUrl)` constructor throwing. -/
def WSClientState.connect (st : WSClientState) (token : String)
    (sessionId : Option String) (ctorFails : Bool) : WSClientState × List Eff :=
  if st.ws = some .CONNECTING ∨ st.ws = some .OPEN then
    (st, [.logInfo "WebSocket already connecting or connected"])
  else
    let st1 := { st with token := some token, sessionId := jsStrOrNull sessionId }
    if ctorFails then
      (st1, [.logError "Failed to create WebSocket connection", .cbError])
    else
      ({ st1 with ws := some .CONNECTING }, [.socketCreated (mkWsUrl token sessionId)])

/-- Model of `sendMessage` (WSClient.ts lines 157-170).  `sendFails` models
`JSON.stringify` or `ws.send` throwing inside the try block. -/
def WSClientState.sendMessage (st : WSClientState) (m : WSOutgoingMessage)
    (sendFails : Bool) : Bool × List Eff :=
  if st.isConnected = false ∨ st.ws = none ∨ st.ws ≠ some .OPEN then
    (false, [.logError "WebSocket not connected, cannot send message"])
  else if sendFails then
    (false, [.logError "Failed to send WebSocket message"])
  else
    (true, [.wsSent m])

/-- Model of `startSession(config)`. -/
def WSClientState.startSession (st : WSClientState) (config : SessionConfig)
    (sendFails : Bool) : Bool × List Eff :=
  st.sendMessage (.start config) sendFails

/-- Model of `sendAudioChunk(audioData, sequence)`. -/
def WSClientState.sendAudioChunk (st : WSClientState) (audioData : String)
    (sequence : Int) (sendFails : Bool) : Bool × List Eff :=
  st.sendMessage (.audio sequence audioData) sendFails

/-- Model of `stopSession()` (WSClient.ts lines 187-197): guarded by the
truthiness of `this.sessionId`. -/
def WSClientState.stopSession (st : WSClientState) (sendFails : Bool) :
    Bool × List Eff :=
  if jsFalsyStr st.sessionId then
    (false, [.logWarn "No session ID available for stop message"])
  else
    st.sendMessage (.stop (st.sessionId.getD "")) sendFails

/-- Model of `ping()`. -/
def WSClientState.ping (st : WSClientState) (sendFails : Bool) : Bool × List Eff :=
  st.sendMessage .ping sendFails

/-- Model of `handleMessage` (WSClient.ts lines 114-155): echo to `onMessage`,
then dispatch on `message.type`; only the `ack` branch mutates state. -/
def WSClientState.handleMessage (st : WSClientState) (m : WSIncomingMessage) :
    WSClientState × List Eff :=
  match m with
  | .ack sid md ex =>
      ({ st with sessionId := some sid }, [.cbMessage m, .cbAck sid md ex])
  | .interim sid t ex => (st, [.cbMessage m, .cbInterim sid t ex])
  | .processing sid stg ex => (st, [.cbMessage m, .cbProcessing sid stg ex])
  | .final fm => (st, [.cbMessage m, .cbFinal fm])
  | .error _ _ _ =>
      (st, [.cbMessage m, .logError "WebSocket server error", .cbError])
  | .unknown _ _ => (st, [.cbMessage m, .logInfo "Unknown message type"])

/-- Model of `attemptReconnect` (WSClient.ts lines 221-232): bump the counter and
schedule a delayed `connect` with exponential backoff. -/
def WSClientState.attemptReconnect (st : WSClientState) : WSClientState × List Eff :=
  let attempts := st.reconnectAttempts + 1
  let delay := reconnectDelay * 2 ^ (attempts - 1)
  ({ st with reconnectAttempts := attempts }, [.scheduledReconnect attempts delay])

/-- Browser events delivered to the socket handlers installed by
`setupEventHandlers`; `message none` is a frame whose payload fails
`JSON.parse`, `message (some m)` one that decodes to `m`. -/
inductive WSEvent where
  | opened
  | close (code : Nat)
  | errorEvent
  | message (frame : Option WSIncomingMessage)
  deriving Repr, DecidableEq

/-- The handlers of `setupEventHandlers` (WSClient.ts lines 68-112).
The browser sets `readyState` to OPEN / CLOSED before firing the
corresponding event. -/
def WSClientState.handleEvent (st : WSClientState) (ev : WSEvent) :
    WSClientState × List Eff :=
  match ev with
  | .opened =>
      ({ st with ws := some .OPEN, isConnected := true,
                 reconnectAttempts := 0, heartbeatOn := true }, [.cbOpen])
  | .close code =>
      let st1 := { st with ws := some .CLOSED, isConnected := false,
                           heartbeatOn := false }
      if code ≠ 1000 ∧ st1.reconnectAttempts < maxReconnectAttempts then
        let (st2, effs2) := st1.attemptReconnect
        (st2, .cbClose code :: effs2)
      else
        (st1, [.cbClose code])
  | .errorEvent => (st, [.cbError])
  | .message none => (st, [.logError "Failed to parse WebSocket message"])
  | .message (some m) => st.handleMessage m

/-- Model of `disconnect()` (WSClient.ts lines 234-245). -/
def WSClientState.disconnect (st : WSClientState) : WSClientState × List Eff :=
  let effs : List Eff := match st.ws with
    | some _ => [.socketClose 1000]
    | none => []
  ({ st with heartbeatOn := false, ws := none, isConnected := false,
             sessionId := none, reconnectAttempts := 0 }, effs)

/-! SpeakSession.tsx: the React component driving a session.  Its
`useState` fields become a record; the field-assigned `wsClient.onX`
callbacks become the `…Cb` functions below, run whenever delivering a
socket event to the embedded client produces the matching `cb…` effect.
The component model instantiates the failure flags of the client calls
it makes to `false` (its sends and socket construction do not throw). -/

/-- Values of the `sessionState` state variable (SpeakSession.tsx line 16). -/
inductive SessionUIState where
  | idle | connecting | connected | recording | processing | completed | error
  deriving Repr, DecidableEq

/-- Values of the `connectionStatus` state variable. -/
inductive ConnStatus where
  | CONNECTING | CONNECTED | DISCONNECTED
  deriving Repr, DecidableEq

/-- State of the `SpeakSession` component: its `useState` variables,
the `isRecording` flag of `useMediaRecorder`, the one-second interval
(`timerRef`, on/off) and the `WSClient` instance in `wsClientRef`. -/
structure SpeakState where
  sessionState : SessionUIState
  currentTranscript : String
  finalResult : Option WSFinalMessage
  connectionStatus : ConnStatus
  timeRemaining : Int
  sequenceNumber : Nat
  timerOn : Bool
  isRecording : Bool
  client : Option WSClientState
  deriving Repr, DecidableEq

/-- Initial component state (the `useState` initializers). -/
def SpeakState.init : SpeakState :=
  { sessionState := .idle, currentTranscript := "", finalResult := none,
    connectionStatus := .DISCONNECTED, timeRemaining := 0, sequenceNumber := 0,
    timerOn := false, isRecording := false, client := none }

/-- Render-time props and context of the component: the auth token and
the `config` prop forwarded to `startSession`. -/
structure SpeakCtx where
  token : Option String
  config : SessionConfig
  deriving Repr, DecidableEq

/-- Model of `wsClient.onOpen` handler (SpeakSession.tsx lines 71-74). -/
def SpeakState.onOpenCb (st : SpeakState) : SpeakState × List Eff :=
  ({ st with connectionStatus := .CONNECTED, sessionState := .connected }, [])

/-- Model of `wsClient.onClose` handler (lines 76-81): mark disconnected, and
flag an error unless the session already completed. -/
def SpeakState.onCloseCb (st : SpeakState) : SpeakState × List Eff :=
  if st.sessionState ≠ .completed then
    ({ st with connectionStatus := .DISCONNECTED, sessionState := .error }, [])
  else ({ st with connectionStatus := .DISCONNECTED }, [])

/-- Model of `wsClient.onError` handler (lines 83-88): also forwards to the
component's `onError` prop. -/
def SpeakState.onErrorCb (st : SpeakState) : SpeakState × List Eff :=
  ({ st with sessionState := .error }, [.propOnError])

/-- Model of `startAudioRecording` (lines 131-142): start the media recorder
with the audio-data callback and enter the recording state. -/
def SpeakState.startAudioRecording (st : SpeakState) : SpeakState × List Eff :=
  ({ st with isRecording := true, sessionState := .recording }, [.recorderStart])

/-- Model of `wsClient.onAck` handler (lines 90-94): seed the countdown with
`message.max_duration || 60`, start the interval, start recording. -/
def SpeakState.onAckCb (st : SpeakState) (max_duration : Option Int) :
    SpeakState × List Eff :=
  let st1 := { st with timeRemaining := jsOrSixty max_duration, timerOn := true }
  st1.startAudioRecording

/-- Model of `wsClient.onInterim` handler (lines 96-98): `message.transcript || ''`. -/
def SpeakState.onInterimCb (st : SpeakState) (transcript : Option String) :
    SpeakState × List Eff :=
  ({ st with currentTranscript := transcript.getD "" }, [])

/-- Model of `wsClient.onProcessing` handler (lines 100-103). -/
def SpeakState.onProcessingCb (st : SpeakState) : SpeakState × List Eff :=
  ({ st with sessionState := .processing,
             currentTranscript := "Processing your speech..." }, [])

/-- Model of `wsClient.onFinal` handler (lines 105-111): completed state, store
the result, forward to the `onSessionComplete` prop. -/
def SpeakState.onFinalCb (st : SpeakState) (m : WSFinalMessage) :
    SpeakState × List Eff :=
  ({ st with sessionState := .completed, finalResult := some m },
   [.propOnSessionComplete m])

/-- Model of `handleStopSession` (lines 157-171): clear the interval, stop the
recorder when it is running, send the stop message, enter processing. -/
def SpeakState.handleStopSession (st : SpeakState) : SpeakState × List Eff :=
  let st1 := { st with timerOn := false }
  let (st2, e1) :=
    if st1.isRecording then ({ st1 with isRecording := false }, [Eff.recorderStop])
    else (st1, [])
  let e2 :=
    match st2.client with
    | some c => (c.stopSession false).2
    | none => []
  ({ st2 with sessionState := .processing }, e1 ++ e2)

/-- One firing of the `setInterval(..., 1000)` callback installed by
`startTimer` (lines 118-129): decrement, and on reaching zero stop the
session and pin the display at zero. -/
def SpeakState.timerTick (st : SpeakState) : SpeakState × List Eff :=
  if st.timerOn then
    let newTime := st.timeRemaining - 1
    if newTime ≤ 0 then
      let (st1, effs) := st.handleStopSession
      ({ st1 with timeRemaining := 0 }, effs)
    else
      ({ st with timeRemaining := newTime }, [])
  else (st, [])

/-- Model of `handleAudioData` (lines 132-138): while recording, bump the
sequence counter and ship the chunk via `sendAudioChunk`. -/
def SpeakState.handleAudioData (st : SpeakState) (b64 : String) :
    SpeakState × List Eff :=
  match st.client with
  | some c =>
      if st.sessionState = .recording then
        let currentSeq := st.sequenceNumber + 1
        ({ st with sequenceNumber := currentSeq },
         .audioChunkCall b64 currentSeq ::
           (c.sendAudioChunk b64 (Int.ofNat currentSeq) false).2)
      else (st, [])
  | none => (st, [])

/-- Model of `setupWebSocket` (lines 62-116): bail to the error state on a falsy
token, otherwise build a fresh `WSClient`, install the callbacks, mark
connecting and call `connect(token)`. -/
def SpeakState.setupWebSocket (st : SpeakState) (token : Option String) :
    SpeakState × List Eff :=
  if jsFalsyStr token then
    ({ st with sessionState := .error }, [])
  else
    let (c, effs) := WSClientState.init.connect (token.getD "") none false
    ({ st with client := some c, connectionStatus := .CONNECTING,
               sessionState := .connecting }, effs)

/-- Model of `handleStartSession` (lines 144-155), without the one-second
timeout it schedules: a no-op outside `idle`. -/
def SpeakState.handleStartSession (st : SpeakState) (token : Option String) :
    SpeakState × List Eff :=
  if st.sessionState ≠ .idle then (st, [])
  else st.setupWebSocket token

/-- The `setTimeout` body of `handleStartSession` firing one second
later: start the session when the client reports itself connected. -/
def SpeakState.startTimeoutFire (st : SpeakState) (config : SessionConfig) :
    SpeakState × List Eff :=
  match st.client with
  | some c => if c.isConnected then (st, (c.startSession config false).2)
              else (st, [])
  | none => (st, [])

/-- Run the component callback, if any, registered for one effect the
embedded client produced (the `wsClient.onX = …` assignments). -/
def SpeakState.applyEff (st : SpeakState) (e : Eff) : SpeakState × List Eff :=
  match e with
  | .cbOpen => st.onOpenCb
  | .cbClose _ => st.onCloseCb
  | .cbError => st.onErrorCb
  | .cbAck _ md _ => st.onAckCb md
  | .cbInterim _ t _ => st.onInterimCb t
  | .cbProcessing _ _ _ => st.onProcessingCb
  | .cbFinal m => st.onFinalCb m
  | _ => (st, [])

/-- Fold the component callbacks over a client effect list, keeping
each client effect in the trace followed by what its callback did. -/
def SpeakState.applyEffs (st : SpeakState) : List Eff → SpeakState × List Eff
  | [] => (st, [])
  | e :: rest =>
      let (st1, out1) := st.applyEff e
      let (st2, out2) := st1.applyEffs rest
      (st2, e :: (out1 ++ out2))

/-- Deliver a browser socket event: the embedded `WSClient` processes
it and the component reacts to the callback invocations it produced. -/
def SpeakState.wsDeliver (st : SpeakState) (ev : WSEvent) : SpeakState × List Eff :=
  match st.client with
  | none => (st, [])
  | some c =>
      let (c1, effs) := c.handleEvent ev
      SpeakState.applyEffs { st with client := some c1 } effs

/-- External events of the component: socket events, interval ticks,
recorder data, the two session buttons, the deferred `startSession`
timeout, and the two reset buttons (each rendered, hence clickable,
only in the state its guard names). -/
inductive SpeakEvent where
  | ws (ev : WSEvent)
  | tick
  | audioData (b64 : String)
  | pressStart
  | pressStop
  | startTimeout
  | pressNewSession
  | pressTryAgain
  deriving Repr, DecidableEq

/-- One step of the component under one event. -/
def SpeakState.step (ctx : SpeakCtx) (st : SpeakState) :
    SpeakEvent → SpeakState × List Eff
  | .ws ev => st.wsDeliver ev
  | .tick => st.timerTick
  | .audioData b => st.handleAudioData b
  | .pressStart => st.handleStartSession ctx.token
  | .pressStop =>
      if st.sessionState = .recording then st.handleStopSession else (st, [])
  | .startTimeout => st.startTimeoutFire ctx.config
  | .pressNewSession =>
      if st.sessionState = .completed then
        ({ st with sessionState := .idle, currentTranscript := "",
                   finalResult := none, timeRemaining := 0,
                   sequenceNumber := 0 }, [])
      else (st, [])
  | .pressTryAgain =>
      if st.sessionState = .error then
        ({ st with sessionState := .idle, currentTranscript := "",
                   connectionStatus := .DISCONNECTED }, [])
      else (st, [])

/-- Run a list of events, concatenating the traces. -/
def SpeakState.run (ctx : SpeakCtx) (st : SpeakState) :
    List SpeakEvent → SpeakState × List Eff
  | [] => (st, [])
  | e :: es =>
      let (st1, o1) := st.step ctx e
      let (st2, o2) := st1.run ctx es
      (st2, o1 ++ o2)

/-- Iterate the interval callback, discarding traces. -/
def SpeakState.ticks (st : SpeakState) : Nat → SpeakState
  | 0 => st
  | n + 1 => (st.timerTick.1).ticks n

/-- The sequence numbers of the audio chunks a trace ships, in order. -/
def audioSeqs (tr : List Eff) : List Nat :=
  tr.filterMap fun e =>
    match e with
    | .audioChunkCall _ s => some s
    | _ => none

/-- Erase the extra unknown JSON fields carried inside an effect's
message payloads, keeping everything the dispatch logic depends on. -/
def Eff.scrubExtras : Eff → Eff
  | .cbMessage m => .cbMessage (m.setExtras [])
  | .cbAck sid md _ => .cbAck sid md []
  | .cbInterim sid t _ => .cbInterim sid t []
  | .cbProcessing sid stg _ => .cbProcessing sid stg []
  | .cbFinal m => .cbFinal { m with extras := [] }
  | .propOnSessionComplete m => .propOnSessionComplete { m with extras := [] }
  | e => e

/-! Theorems settling the claims. -/

/-- Claim C10: while the existing socket is CONNECTING or OPEN,
`connect` is a no-op — no socket is created (the only effect is a
console log) and every stored field is unchanged. -/
theorem C10_connect_idempotent (st : WSClientState) (token : String)
    (sessionId : Option String) (ctorFails : Bool)
    (h : st.ws = some .CONNECTING ∨ st.ws = some .OPEN) :
    st.connect token sessionId ctorFails =
      (st, [.logInfo "WebSocket already connecting or connected"]) := by
  unfold WSClientState.connect
  rw [if_pos h]

/-- Concrete witness for C10: a client whose socket is OPEN. -/
def liveClient : WSClientState := { WSClientState.init with ws := some .OPEN }

/-- Witness instantiating C10 on `liveClient`. -/
theorem C10_witness :
    (liveClient.ws = some .CONNECTING ∨ liveClient.ws = some .OPEN) ∧
    liveClient.connect "tok" (some "s9") true =
      (liveClient, [.logInfo "WebSocket already connecting or connected"]) :=
  ⟨Or.inr rfl, C10_connect_idempotent liveClient "tok" (some "s9") true (Or.inr rfl)⟩

/-- Claim C8: `sendMessage` is total and never escalates a failure.
When the client is not connected, the socket is absent, or its
readyState is not OPEN, it returns false and transmits nothing; when
the serialization/transmission step throws, the error is swallowed and
reported as a false return; it returns true exactly when connected
with an OPEN socket and a non-throwing send, and then the message
is transmitted unchanged. -/
theorem C8_sendMessage_total (st : WSClientState) (m : WSOutgoingMessage) (f : Bool) :
    (st.isConnected = false ∨ st.ws = none ∨ st.ws ≠ some .OPEN →
      st.sendMessage m f =
        (false, [.logError "WebSocket not connected, cannot send message"])) ∧
    (f = true → (st.sendMessage m f).1 = false ∧
      ∀ m2, Eff.wsSent m2 ∉ (st.sendMessage m f).2) ∧
    ((st.sendMessage m f).1 = true ↔
      st.isConnected = true ∧ st.ws = some .OPEN ∧ f = false) ∧
    ((st.sendMessage m f).1 = true → (st.sendMessage m f).2 = [.wsSent m]) := by
  unfold WSClientState.sendMessage
  by_cases h : st.isConnected = false ∨ st.ws = none ∨ st.ws ≠ some .OPEN
  · rw [if_pos h]
    refine ⟨fun _ => rfl, fun _ => ⟨rfl, by simp⟩, ?_, by simp⟩
    constructor
    · intro hff; simp at hff
    · rintro ⟨h1, h2, -⟩
      rcases h with h | h | h <;> simp_all
  · rw [if_neg h]
    simp only [not_or, Bool.not_eq_false, not_not] at h
    obtain ⟨h1, h2, h3⟩ := h
    cases f with
    | true =>
        refine ⟨fun hc => ?_, fun _ => ⟨rfl, by simp⟩, by simp, by simp⟩
        rcases hc with hc | hc | hc <;> simp_all
    | false =>
        refine ⟨fun hc => ?_, by simp, by simp [h1, h3], fun _ => rfl⟩
        rcases hc with hc | hc | hc <;> simp_all

/-- Witness instantiating C8 on a connected client with a throwing send
and on the fresh (disconnected) client. -/
theorem C8_witness :
    ((true : Bool) = true ∧
      ({ liveClient with isConnected := true }.sendMessage .ping true).1 = false) ∧
    (WSClientState.init.isConnected = false ∨ WSClientState.init.ws = none ∨
        WSClientState.init.ws ≠ some .OPEN) ∧
    WSClientState.init.sendMessage .ping false =
      (false, [.logError "WebSocket not connected, cannot send message"]) :=
  ⟨⟨rfl, ((C8_sendMessage_total { liveClient with isConnected := true } .ping
      true).2.1 rfl).1⟩,
   Or.inl rfl,
   (C8_sendMessage_total WSClientState.init .ping false).1 (Or.inl rfl)⟩

/-- Counterexample to claim C5 as stated: a frame whose payload fails
to decode is only logged — the `onError` invocation site is never
reached, so no error response is produced, refuting "an error response
is produced (the error handler is invoked)". -/
theorem C5_counterexample :
    WSClientState.init.handleEvent (.message none) =
      (WSClientState.init, [.logError "Failed to parse WebSocket message"]) ∧
    Eff.cbError ∉ (WSClientState.init.handleEvent (.message none)).2 := by
  refine ⟨rfl, ?_⟩
  simp [WSClientState.handleEvent]

/-- Claim C5 (amended): an undecodable frame is caught and logged but
invokes no error handler; it never reaches `handleMessage` and mutates
no state — the client state, and the SpeakSession component state when
such a frame is delivered to it, are unchanged. -/
theorem C5_decode_failure (st : WSClientState) (sp : SpeakState) :
    st.handleEvent (.message none) =
      (st, [.logError "Failed to parse WebSocket message"]) ∧
    (sp.wsDeliver (.message none)).1 = sp := by
  refine ⟨rfl, ?_⟩
  unfold SpeakState.wsDeliver
  cases hc : sp.client with
  | none => rfl
  | some c =>
      cases sp
      simp_all [WSClientState.handleEvent, SpeakState.applyEffs, SpeakState.applyEff]

/-- Counterexample to claim C6 as stated: a decoded message with the
unrecognized type tag "bogus" is merely logged; the dispatcher produces
no error — the `onError` invocation site is not reached — refuting
"it produces an error". -/
theorem C6_counterexample :
    WSClientState.init.handleMessage (.unknown "bogus" []) =
      (WSClientState.init,
       [.cbMessage (.unknown "bogus" []), .logInfo "Unknown message type"]) ∧
    Eff.cbError ∉ (WSClientState.init.handleMessage (.unknown "bogus" [])).2 := by
  refine ⟨rfl, ?_⟩
  simp [WSClientState.handleMessage]

/-- Claim C6 (amended): a decoded message whose type is not among the
known kinds is logged and otherwise ignored — no type-specific handler
is invoked, no error is produced, and state is unchanged — while for
every message both the state change and the effect trace, up to the
extra unknown fields echoed inside handler payloads, are independent of
those extra fields, so messages of a known type carrying extra fields
are dispatched normally. -/
theorem C6_unknown_type (st : WSClientState) (m : WSIncomingMessage)
    (ex : Extras) (name : String) :
    st.handleMessage (.unknown name ex) =
      (st, [.cbMessage (.unknown name ex), .logInfo "Unknown message type"]) ∧
    Eff.cbError ∉ (st.handleMessage (.unknown name ex)).2 ∧
    (st.handleMessage (m.setExtras ex)).1 = (st.handleMessage m).1 ∧
    ((st.handleMessage (m.setExtras ex)).2.map Eff.scrubExtras) =
      ((st.handleMessage m).2.map Eff.scrubExtras) := by
  refine ⟨rfl, by simp [WSClientState.handleMessage], ?_, ?_⟩ <;>
    cases m <;>
      simp [WSClientState.handleMessage, WSIncomingMessage.setExtras,
        Eff.scrubExtras]

/-- Concrete client used to refute C7 and C9: built from the fresh
client by `connect("tok", "s1")` followed by the socket's open event,
with no ack ever processed. -/
def connectedNoAckClient : WSClientState :=
  ((WSClientState.init.connect "tok" (some "s1") false).1.handleEvent .opened).1

/-- Counterexample to claim C7 as stated: the stop message the client
actually emits carries a `session_id` field, so its shape is
`stop{session_id}` rather than the claimed `stop{}`; likewise the audio
payload field is named `payload_b64`, not `payload`. -/
theorem C7_counterexample :
    connectedNoAckClient.stopSession false = (true, [.wsSent (.stop "s1")]) ∧
    (WSOutgoingMessage.stop "s1").jsonFields = ["type", "session_id"] ∧
    (WSOutgoingMessage.stop "s1").jsonFields ≠ ["type"] ∧
    (WSOutgoingMessage.audio 1 "aGk=").jsonFields = ["type", "sequence", "payload_b64"] ∧
    "payload" ∉ (WSOutgoingMessage.audio 1 "aGk=").jsonFields := by
  refine ⟨by decide, rfl, by decide, rfl, by decide⟩

/-- Claim C7 (amended): every message the client sends is exactly one
of the four shapes `start{config}`, `audio{sequence, payload_b64}`,
`stop{session_id}`, `ping{}`; each sender function emits only its own
shape with the caller's arguments, inbound event handling, `connect`
and `disconnect` transmit nothing, and no other message type exists. -/
theorem C7_message_taxonomy (st : WSClientState) (cfg : SessionConfig)
    (b64 : String) (seq : Int) (f : Bool) (ev : WSEvent) :
    (∀ m, Eff.wsSent m ∈ (st.startSession cfg f).2 → m = .start cfg) ∧
    (∀ m, Eff.wsSent m ∈ (st.sendAudioChunk b64 seq f).2 → m = .audio seq b64) ∧
    (∀ m, Eff.wsSent m ∈ (st.stopSession f).2 → ∃ sid, m = .stop sid) ∧
    (∀ m, Eff.wsSent m ∈ (st.ping f).2 → m = .ping) ∧
    (∀ m : WSOutgoingMessage,
      (m.typeName = "start" ∧ m.jsonFields = ["type", "config"]) ∨
      (m.typeName = "audio" ∧ m.jsonFields = ["type", "sequence", "payload_b64"]) ∨
      (m.typeName = "stop" ∧ m.jsonFields = ["type", "session_id"]) ∨
      (m.typeName = "ping" ∧ m.jsonFields = ["type"])) ∧
    (∀ m, Eff.wsSent m ∉ (st.handleEvent ev).2) ∧
    (∀ tok sid cf m, Eff.wsSent m ∉ (st.connect tok sid cf).2) ∧
    (∀ m, Eff.wsSent m ∉ st.disconnect.2) := by
  have hsend : ∀ (m m2 : WSOutgoingMessage) (g : Bool),
      Eff.wsSent m2 ∈ (st.sendMessage m g).2 → m2 = m := by
    intro m m2 g hmem
    unfold WSClientState.sendMessage at hmem
    split at hmem
    · simp at hmem
    · split at hmem <;> simp_all
  refine ⟨fun m hm => hsend _ m f hm, fun m hm => hsend _ m f hm, ?_,
    fun m hm => hsend _ m f hm, ?_, ?_, ?_, ?_⟩
  · intro m hm
    unfold WSClientState.stopSession at hm
    split at hm
    · simp at hm
    · exact ⟨_, hsend _ m f hm⟩
  · intro m
    cases m with
    | start c => exact Or.inl ⟨rfl, rfl⟩
    | audio s p => exact Or.inr (Or.inl ⟨rfl, rfl⟩)
    | stop s => exact Or.inr (Or.inr (Or.inl ⟨rfl, rfl⟩))
    | ping => exact Or.inr (Or.inr (Or.inr ⟨rfl, rfl⟩))
  · intro m
    cases ev with
    | opened => simp [WSClientState.handleEvent]
    | close code =>
        simp only [WSClientState.handleEvent, WSClientState.attemptReconnect]
        split <;> simp
    | errorEvent => simp [WSClientState.handleEvent]
    | message frame =>
        cases frame with
        | none => simp [WSClientState.handleEvent]
        | some msg =>
            cases msg <;>
              simp [WSClientState.handleEvent, WSClientState.handleMessage]
  · intro tok sid cf m
    unfold WSClientState.connect
    split
    · simp
    · split <;> simp
  · intro m
    unfold WSClientState.disconnect
    cases st.ws <;> simp

/-- Witness instantiating C7 on the connected client, discharging the
membership hypothesis of the stop conjunct with the emitted message. -/
theorem C7_witness :
    Eff.wsSent (.stop "s1") ∈ (connectedNoAckClient.stopSession false).2 ∧
    ∃ sid, WSOutgoingMessage.stop "s1" = .stop sid :=
  ⟨by decide,
   (C7_message_taxonomy connectedNoAckClient
      { subject := "Travel", speak_time := 60, type := "SUBJECT_SPEAK" }
      "aGk=" 1 false .opened).2.2.1 (.stop "s1") (by decide)⟩

/-- Counterexample to claim C9 as stated: `connectedNoAckClient` was
built from the fresh client by `connect` and the open event alone — no
ack message was ever received — yet `stopSession()` succeeds and sends
a stop, because `connect(token, sessionId)` also records a session id. -/
theorem C9_counterexample :
    connectedNoAckClient.stopSession false = (true, [.wsSent (.stop "s1")]) ∧
    connectedNoAckClient.sessionId = some "s1" := by
  exact ⟨by decide, by decide⟩

/-- Claim C9 (amended): `stopSession()` sends a stop message only when
a non-empty session id is present — recorded from an ack message or
supplied to `connect` — and otherwise returns false with only a console
warning, changing nothing; an ack with session id `sid` always leaves
the stored session id at `sid`, and `connect` stores its (emptiness-
normalized) session-id argument unless the socket is already live. -/
theorem C9_stop_requires_session (st : WSClientState) (f : Bool) :
    (jsFalsyStr st.sessionId = true →
      st.stopSession f =
        (false, [.logWarn "No session ID available for stop message"])) ∧
    (∀ sid, st.sessionId = some sid → sid ≠ "" →
      st.stopSession f = st.sendMessage (.stop sid) f) ∧
    (∀ sid md ex, ((st.handleMessage (.ack sid md ex)).1).sessionId = some sid) ∧
    (∀ tok sid cf, ((st.connect tok sid cf).1).sessionId =
      if st.ws = some .CONNECTING ∨ st.ws = some .OPEN then st.sessionId
      else jsStrOrNull sid) := by
  refine ⟨fun h => ?_, fun sid h1 h2 => ?_, fun sid md ex => rfl, fun tok sid cf => ?_⟩
  · unfold WSClientState.stopSession
    rw [h]
    simp
  · unfold WSClientState.stopSession
    rw [h1]
    have hfal : jsFalsyStr (some sid) = false := by
      simp [jsFalsyStr, h2]
    rw [hfal]
    simp [h1]
  · unfold WSClientState.connect
    split
    · rfl
    · cases cf <;> rfl

/-- Witness instantiating C9 on the fresh client (no session id). -/
theorem C9_witness :
    jsFalsyStr WSClientState.init.sessionId = true ∧
    WSClientState.init.stopSession true =
      (false, [.logWarn "No session ID available for stop message"]) :=
  ⟨rfl, (C9_stop_requires_session WSClientState.init true).1 rfl⟩

/-- Claim C4: a reconnection is scheduled exactly on a close whose code
is not 1000 while the attempt counter is below 5; the n-th consecutive
attempt (counter n-1 before the close) is delayed 1000·2^(n-1) ms; a
close with code 1000 or a counter at 5 schedules nothing; a successful
open resets the counter, making the count consecutive. -/
theorem C4_bounded_backoff (st : WSClientState) (code : Nat) (ev : WSEvent) :
    (code ≠ 1000 → st.reconnectAttempts < maxReconnectAttempts →
      st.handleEvent (.close code) =
        ({ st with ws := some .CLOSED, isConnected := false, heartbeatOn := false,
                   reconnectAttempts := st.reconnectAttempts + 1 },
         [.cbClose code,
          .scheduledReconnect (st.reconnectAttempts + 1)
            (reconnectDelay * 2 ^ st.reconnectAttempts)])) ∧
    (code = 1000 ∨ maxReconnectAttempts ≤ st.reconnectAttempts →
      st.handleEvent (.close code) =
        ({ st with ws := some .CLOSED, isConnected := false, heartbeatOn := false },
         [.cbClose code])) ∧
    (∀ a d, Eff.scheduledReconnect a d ∈ (st.handleEvent ev).2 →
      ∃ c, ev = .close c ∧ c ≠ 1000 ∧
        st.reconnectAttempts < maxReconnectAttempts ∧
        a = st.reconnectAttempts + 1 ∧
        d = reconnectDelay * 2 ^ st.reconnectAttempts) ∧
    ((st.handleEvent .opened).1.reconnectAttempts = 0) := by
  refine ⟨fun h1 h2 => ?_, fun h => ?_, fun a d hmem => ?_, rfl⟩
  · simp only [WSClientState.handleEvent, WSClientState.attemptReconnect]
    rw [if_pos ⟨h1, h2⟩]
    simp
  · simp only [WSClientState.handleEvent]
    rw [if_neg]
    rintro ⟨hc, hlt⟩
    rcases h with h | h
    · exact hc h
    · exact absurd hlt (by omega)
  · cases ev with
    | opened => simp [WSClientState.handleEvent] at hmem
    | close c =>
        refine ⟨c, rfl, ?_⟩
        simp only [WSClientState.handleEvent, WSClientState.attemptReconnect] at hmem
        split at hmem
        · next hcond =>
            simp only [List.mem_cons, List.mem_singleton, List.not_mem_nil] at hmem
            rcases hmem with hmem | hmem | hmem
            · exact absurd hmem (by simp)
            · injection hmem with ha hd
              refine ⟨hcond.1, hcond.2, ha, ?_⟩
              rw [hd]
              simp
            · exact absurd hmem (by simp)
        · simp at hmem
    | errorEvent => simp [WSClientState.handleEvent] at hmem
    | message frame =>
        cases frame with
        | none => simp [WSClientState.handleEvent] at hmem
        | some msg =>
            cases msg <;>
              simp [WSClientState.handleEvent, WSClientState.handleMessage] at hmem

/-- State part of `handleStopSession`: the interval is cleared, the
recorder is off, and the session is processing; nothing else changes. -/
theorem handleStopSession_fst (st : SpeakState) :
    (st.handleStopSession).1 =
      { st with timerOn := false, isRecording := false,
                sessionState := .processing } := by
  unfold SpeakState.handleStopSession
  cases h : st.isRecording <;> cases st <;> simp_all

/-- Trace part of `handleStopSession`: a recorder stop when recording,
then whatever the client's `stopSession()` call emits. -/
theorem handleStopSession_snd (st : SpeakState) :
    (st.handleStopSession).2 =
      (if st.isRecording then [Eff.recorderStop] else []) ++
        (match st.client with
         | some c => (c.stopSession false).2
         | none => []) := by
  unfold SpeakState.handleStopSession
  cases h : st.isRecording <;> simp [h]

/-- A tick with more than one second left only decrements the clock. -/
theorem timerTick_run (st : SpeakState) (h : st.timerOn = true)
    (h2 : 1 < st.timeRemaining) :
    st.timerTick = ({ st with timeRemaining := st.timeRemaining - 1 }, []) := by
  simp only [SpeakState.timerTick, h, if_true]
  rw [if_neg (by omega)]

/-- A tick with at most one second left fires `handleStopSession` and
pins the clock at zero. -/
theorem timerTick_fire (st s : SpeakState) (e : List Eff)
    (hse : st.handleStopSession = (s, e)) (h : st.timerOn = true)
    (h2 : st.timeRemaining ≤ 1) :
    st.timerTick = ({ s with timeRemaining := 0 }, e) := by
  simp only [SpeakState.timerTick, h, if_true, hse]
  rw [if_pos (by omega)]

/-- Unfolding lemma for one more tick. -/
theorem ticks_succ (st : SpeakState) (n : Nat) :
    st.ticks (n + 1) = (st.timerTick.1).ticks n := rfl

/-- Ticks compose additively. -/
theorem ticks_add (a b : Nat) : ∀ st : SpeakState,
    st.ticks (a + b) = (st.ticks a).ticks b := by
  induction a with
  | zero => intro st; rw [Nat.zero_add]; rfl
  | succ n ih =>
      intro st
      rw [Nat.succ_add, ticks_succ, ticks_succ, ih]

/-- With the interval cleared, ticks change nothing. -/
theorem ticks_frozen (n : Nat) : ∀ st : SpeakState, st.timerOn = false →
    st.ticks n = st := by
  induction n with
  | zero => intro st _; rfl
  | succ k ih =>
      intro st h
      rw [ticks_succ]
      have hfix : st.timerTick = (st, []) := by
        unfold SpeakState.timerTick
        rw [if_neg (by simp [h])]
      rw [hfix]
      exact ih st h

/-- While more seconds remain than ticks taken, the countdown only
decrements the clock. -/
theorem ticks_countdown (k : Nat) : ∀ st : SpeakState, st.timerOn = true →
    (k : Int) < st.timeRemaining →
    st.ticks k = { st with timeRemaining := st.timeRemaining - k } := by
  induction k with
  | zero =>
      intro st h h2
      show st = _
      cases st
      simp
  | succ n ih =>
      intro st h h2
      have hcast : ((n + 1 : Nat) : Int) = (n : Int) + 1 := by push_cast; ring
      rw [hcast] at h2
      rw [ticks_succ, timerTick_run st h (by omega)]
      rw [ih _ (by simp [h]) (by simp; omega)]
      cases st
      simp
      ring

/-- The shape of the state right after the component's ack handler. -/
theorem onAckCb_fst (st : SpeakState) (md : Option Int) :
    (st.onAckCb md).1 =
      { st with timeRemaining := jsOrSixty md, timerOn := true,
                isRecording := true, sessionState := .recording } := rfl

/-- Witness instantiating C4: the first close with code 1006 on a live
client schedules attempt 1 after 1000 ms; a client whose counter is at
5 schedules nothing. -/
theorem C4_witness :
    ((1006 : Nat) ≠ 1000 ∧
      liveClient.reconnectAttempts < maxReconnectAttempts ∧
      liveClient.handleEvent (.close 1006) =
        ({ liveClient with ws := some .CLOSED, isConnected := false,
                           heartbeatOn := false, reconnectAttempts := 1 },
         [.cbClose 1006, .scheduledReconnect 1 1000])) ∧
    (maxReconnectAttempts ≤ ({ liveClient with reconnectAttempts := 5 } :
        WSClientState).reconnectAttempts ∧
      ({ liveClient with reconnectAttempts := 5 } :
          WSClientState).handleEvent (.close 1006) =
        ({ liveClient with ws := some .CLOSED, isConnected := false,
                           heartbeatOn := false, reconnectAttempts := 5 },
         [.cbClose 1006])) := by
  constructor
  · refine ⟨by decide, by decide, ?_⟩
    have h := (C4_bounded_backoff liveClient 1006 .opened).1 (by decide) (by decide)
    simpa using h
  · refine ⟨by decide, ?_⟩
    have h := (C4_bounded_backoff { liveClient with reconnectAttempts := 5 }
        1006 .opened).2.1 (Or.inr (by decide))
    simpa using h

/-- Context used by the concrete component scenarios. -/
def speakCtx : SpeakCtx :=
  { token := some "tok",
    config := { subject := "Travel", speak_time := 600, type := "SUBJECT_SPEAK" } }

/-- Component state after pressing start and the socket opening. -/
def connectedSession : SpeakState :=
  (SpeakState.init.run speakCtx [.pressStart, .ws .opened]).1

/-- Component state after an ack whose `max_duration` is `0` reaches
the connected component. -/
def zeroAckSession : SpeakState :=
  (connectedSession.wsDeliver (.message (some (.ack "s1" (some 0) [])))).1

/-- Counterexample to claim C1 as stated: on an ack carrying
`max_duration = 0` the countdown starts from 60, not from the received
value D = 0 (the `|| 60` default also fires on a present zero), and
recording is still active after one tick, i.e. past `max_duration`
ticks of the timer. -/
theorem C1_counterexample :
    zeroAckSession.timeRemaining = 60 ∧ (60 : Int) ≠ 0 ∧
    (zeroAckSession.ticks 1).sessionState = .recording ∧
    (zeroAckSession.ticks 1).isRecording = true := by
  refine ⟨by decide, by decide, by decide, by decide⟩

/-- Claim C1 (amended): after an ack the countdown starts from the
resolved duration n = `max_duration || 60` (60 when absent or zero);
with no intervening stop, recording is still active strictly before n
ticks, and at exactly n ticks `handleStopSession` has fired — the
recorder is stopped, the interval cleared, the state is processing and
stays there — and the firing tick stops the recorder and, whenever the
client is connected with a non-empty session id, sends the stop
message; so recording never outlives n ticks of the timer. -/
theorem C1_deadline (st st1 : SpeakState) (md : Option Int) (n : Nat)
    (hst1 : st1 = (st.onAckCb md).1) (hn : jsOrSixty md = (n : Int))
    (h1 : 1 ≤ n) :
    (st1.timeRemaining = (n : Int) ∧ st1.timerOn = true ∧
      st1.sessionState = .recording ∧ st1.isRecording = true) ∧
    (∀ k, k < n → (st1.ticks k).sessionState = .recording ∧
      (st1.ticks k).isRecording = true ∧ (st1.ticks k).timerOn = true) ∧
    ((st1.ticks n).sessionState = .processing ∧
      (st1.ticks n).isRecording = false ∧ (st1.ticks n).timerOn = false ∧
      (st1.ticks n).timeRemaining = 0) ∧
    (∀ m, n ≤ m → st1.ticks m = st1.ticks n) ∧
    Eff.recorderStop ∈ ((st1.ticks (n - 1)).timerTick).2 ∧
    (∀ c sid, st.client = some c → c.isConnected = true → c.ws = some .OPEN →
      c.sessionId = some sid → sid ≠ "" →
      Eff.wsSent (.stop sid) ∈ ((st1.ticks (n - 1)).timerTick).2) := by
  subst hst1
  have hP1 : (st.onAckCb md).1.timeRemaining = (n : Int) := by
    rw [show (st.onAckCb md).1.timeRemaining = jsOrSixty md from rfl, hn]
  have hP2 : (st.onAckCb md).1.timerOn = true := rfl
  have hP3 : (st.onAckCb md).1.sessionState = .recording := rfl
  have hP4 : (st.onAckCb md).1.isRecording = true := rfl
  have hcount : ∀ k, k < n → (st.onAckCb md).1.ticks k =
      { (st.onAckCb md).1 with timeRemaining := (n : Int) - (k : Int) } := by
    intro k hk
    rw [ticks_countdown k _ hP2 (by rw [hP1]; exact_mod_cast hk), hP1]
  have hkm : (n : Int) - ((n - 1 : Nat) : Int) = 1 := by omega
  have hBtick : (st.onAckCb md).1.ticks (n - 1) =
      { (st.onAckCb md).1 with timeRemaining := (1 : Int) } := by
    rw [hcount (n - 1) (by omega), hkm]
  have hfire :
      ({ (st.onAckCb md).1 with timeRemaining := (1 : Int) } :
          SpeakState).timerTick =
        ({ ({ (st.onAckCb md).1 with
              timeRemaining := (1 : Int) } : SpeakState).handleStopSession.1 with
            timeRemaining := 0 },
         ({ (st.onAckCb md).1 with
            timeRemaining := (1 : Int) } : SpeakState).handleStopSession.2) :=
    timerTick_fire _ _ _ rfl hP2 (by exact le_refl 1)
  have hticksn : (st.onAckCb md).1.ticks n =
      (({ (st.onAckCb md).1 with timeRemaining := (1 : Int) } :
          SpeakState).timerTick).1 := by
    have hsplit : n = (n - 1) + 1 := by omega
    conv_lhs => rw [hsplit]
    rw [ticks_add, hBtick]
    rfl
  have hfst := handleStopSession_fst
    ({ (st.onAckCb md).1 with timeRemaining := (1 : Int) } : SpeakState)
  have hsnd := handleStopSession_snd
    ({ (st.onAckCb md).1 with timeRemaining := (1 : Int) } : SpeakState)
  refine ⟨⟨hP1, hP2, hP3, hP4⟩, ?_, ?_, ?_, ?_, ?_⟩
  · intro k hk
    rw [hcount k hk]
    exact ⟨hP3, hP4, hP2⟩
  · rw [hticksn, hfire]
    refine ⟨?_, ?_, ?_, rfl⟩ <;> simp [hfst]
  · intro m hm
    have hsplitm : m = n + (m - n) := by omega
    conv_lhs => rw [hsplitm]
    rw [ticks_add]
    apply ticks_frozen
    rw [hticksn, hfire]
    simp [hfst]
  · rw [hBtick, hfire, hsnd]
    simp [hP4]
  · intro c sid hc hconn hws hsid hne
    have hc2 : (st.onAckCb md).1.client = some c := hc
    have hstopc : (c.stopSession false).2 = [Eff.wsSent (.stop sid)] := by
      unfold WSClientState.stopSession WSClientState.sendMessage
      rw [hsid]
      simp [jsFalsyStr, hne, hconn, hws]
    rw [hBtick, hfire, hsnd]
    simp [hc2, hstopc]

/-- Witness instantiating C1 on the concrete connected component with
an ack carrying `max_duration = 3`: after exactly 3 ticks the session
is processing with the recorder and interval stopped. -/
theorem C1_witness :
    (jsOrSixty (some 3) = ((3 : Nat) : Int) ∧ 1 ≤ 3) ∧
    (((connectedSession.onAckCb (some 3)).1.ticks 3).sessionState = .processing ∧
      ((connectedSession.onAckCb (some 3)).1.ticks 3).isRecording = false ∧
      ((connectedSession.onAckCb (some 3)).1.ticks 3).timerOn = false ∧
      ((connectedSession.onAckCb (some 3)).1.ticks 3).timeRemaining = 0) :=
  ⟨⟨by decide, by decide⟩,
   (C1_deadline connectedSession _ (some 3) 3 rfl (by decide) (by decide)).2.2.1⟩

/-- Helper: `audioSeqs` distributes over trace concatenation. -/
theorem audioSeqs_append (a b : List Eff) :
    audioSeqs (a ++ b) = audioSeqs a ++ audioSeqs b := by
  simp [audioSeqs, List.filterMap_append]

/-- Helper: `sendMessage` never emits an audio-chunk call. -/
theorem audioSeqs_sendMessage (c : WSClientState) (m : WSOutgoingMessage)
    (f : Bool) : audioSeqs (c.sendMessage m f).2 = [] := by
  unfold WSClientState.sendMessage
  split
  · rfl
  · split <;> rfl

/-- Helper: `stopSession` never emits an audio-chunk call. -/
theorem audioSeqs_stopSession (c : WSClientState) (f : Bool) :
    audioSeqs (c.stopSession f).2 = [] := by
  unfold WSClientState.stopSession
  split
  · rfl
  · exact audioSeqs_sendMessage c _ f

/-- The client's inbound event handling never emits an audio-chunk
call. -/
theorem audioSeqs_handleEvent (c : WSClientState) (ev : WSEvent) :
    audioSeqs (c.handleEvent ev).2 = [] := by
  cases ev with
  | opened => rfl
  | close code =>
      simp only [WSClientState.handleEvent, WSClientState.attemptReconnect]
      split <;> rfl
  | errorEvent => rfl
  | message frame =>
      cases frame with
      | none => rfl
      | some m => cases m <;> rfl

/-- A single component callback neither ships audio chunks nor touches
the sequence counter. -/
theorem applyEff_audio (st : SpeakState) (e : Eff) :
    audioSeqs (st.applyEff e).2 = [] ∧
    (st.applyEff e).1.sequenceNumber = st.sequenceNumber := by
  cases e <;>
    first
      | exact ⟨rfl, rfl⟩
      | (simp only [SpeakState.applyEff, SpeakState.onCloseCb]
         split <;> exact ⟨rfl, rfl⟩)

/-- Folding the component callbacks over a client trace adds no audio
chunks and leaves the sequence counter unchanged. -/
theorem applyEffs_audio (es : List Eff) : ∀ st : SpeakState,
    audioSeqs (st.applyEffs es).2 = audioSeqs es ∧
    (st.applyEffs es).1.sequenceNumber = st.sequenceNumber := by
  induction es with
  | nil => intro st; exact ⟨rfl, rfl⟩
  | cons e rest ih =>
      intro st
      rcases h1 : st.applyEff e with ⟨st1, o1⟩
      have he := applyEff_audio st e
      rw [h1] at he
      simp only [SpeakState.applyEffs, h1]
      rcases h2 : st1.applyEffs rest with ⟨st2, o2⟩
      have hr := ih st1
      rw [h2] at hr
      constructor
      · show audioSeqs (e :: (o1 ++ o2)) = audioSeqs (e :: rest)
        have hco : ∀ l l2 : List Eff, audioSeqs l = audioSeqs l2 →
            audioSeqs (e :: l) = audioSeqs (e :: l2) := by
          intro l l2 hl
          show audioSeqs ([e] ++ l) = audioSeqs ([e] ++ l2)
          rw [audioSeqs_append, audioSeqs_append, hl]
        apply hco
        rw [audioSeqs_append, he.1, hr.1]
        rfl
      · show st2.sequenceNumber = st.sequenceNumber
        rw [hr.2, he.2]

/-- Helper: `connect` never emits an audio-chunk call. -/
theorem audioSeqs_connect (st : WSClientState) (tok : String)
    (sid : Option String) (cf : Bool) :
    audioSeqs (st.connect tok sid cf).2 = [] := by
  unfold WSClientState.connect
  split
  · rfl
  · split <;> rfl

/-- Helper: `handleStopSession` never emits an audio-chunk call. -/
theorem audioSeqs_handleStopSession (st : SpeakState) :
    audioSeqs (st.handleStopSession).2 = [] := by
  refine Eq.trans (congrArg audioSeqs (handleStopSession_snd st)) ?_
  rw [audioSeqs_append, List.append_eq_nil]
  constructor
  · split <;> rfl
  · cases st.client with
    | none => rfl
    | some c => exact audioSeqs_stopSession c false

/-- One component step either ships no chunk and (except for the
completed-session reset) keeps the counter, or is a recording-state
audio event that ships exactly one chunk numbered counter + 1 and bumps
the counter to it. -/
theorem step_audio_chunks (ctx : SpeakCtx) (st : SpeakState) (e : SpeakEvent) :
    (audioSeqs (st.step ctx e).2 = [] ∧
      ((st.step ctx e).1.sequenceNumber = st.sequenceNumber ∨
        e = .pressNewSession)) ∨
    (∃ b, e = .audioData b ∧
      audioSeqs (st.step ctx e).2 = [st.sequenceNumber + 1] ∧
      (st.step ctx e).1.sequenceNumber = st.sequenceNumber + 1) := by
  cases e with
  | ws ev =>
      left
      refine ⟨?_, Or.inl ?_⟩ <;>
        simp only [SpeakState.step, SpeakState.wsDeliver] <;>
        cases hc : st.client with
        | none => rfl
        | some c =>
            first
              | exact Eq.trans
                  (applyEffs_audio (c.handleEvent ev).2
                    { st with client := some (c.handleEvent ev).1 }).1
                  (audioSeqs_handleEvent c ev)
              | exact (applyEffs_audio (c.handleEvent ev).2
                  { st with client := some (c.handleEvent ev).1 }).2
  | tick =>
      left
      constructor
      · simp only [SpeakState.step, SpeakState.timerTick]
        split
        · split
          · exact audioSeqs_handleStopSession st
          · rfl
        · rfl
      · refine Or.inl ?_
        simp only [SpeakState.step, SpeakState.timerTick]
        split
        · split
          · have hseq := congrArg SpeakState.sequenceNumber
              (handleStopSession_fst st)
            exact hseq
          · rfl
        · rfl
  | audioData b =>
      simp only [SpeakState.step, SpeakState.handleAudioData]
      cases hc : st.client with
      | none => left; exact ⟨rfl, Or.inl rfl⟩
      | some c =>
          simp only []
          by_cases hrec : st.sessionState = SessionUIState.recording
          · rw [if_pos hrec]
            right
            refine ⟨b, rfl, ?_, rfl⟩
            have hsm : audioSeqs
                ((c.sendAudioChunk b (Int.ofNat (st.sequenceNumber + 1))
                  false).2) = [] :=
              audioSeqs_sendMessage c _ false
            show (st.sequenceNumber + 1) ::
                audioSeqs ((c.sendAudioChunk b
                  (Int.ofNat (st.sequenceNumber + 1)) false).2) =
              [st.sequenceNumber + 1]
            rw [hsm]
          · rw [if_neg hrec]
            left; exact ⟨rfl, Or.inl rfl⟩
  | pressStart =>
      left
      constructor
      · simp only [SpeakState.step, SpeakState.handleStartSession,
          SpeakState.setupWebSocket]
        split
        · rfl
        · split
          · rfl
          · exact audioSeqs_connect WSClientState.init (ctx.token.getD "") none
              false
      · refine Or.inl ?_
        simp only [SpeakState.step, SpeakState.handleStartSession,
          SpeakState.setupWebSocket]
        split
        · rfl
        · split <;> rfl
  | pressStop =>
      left
      constructor
      · simp only [SpeakState.step]
        split
        · exact audioSeqs_handleStopSession st
        · rfl
      · refine Or.inl ?_
        simp only [SpeakState.step]
        split
        · have hseq := congrArg SpeakState.sequenceNumber
            (handleStopSession_fst st)
          exact hseq
        · rfl
  | startTimeout =>
      left
      constructor
      · simp only [SpeakState.step, SpeakState.startTimeoutFire]
        cases hc : st.client with
        | none => rfl
        | some c =>
            simp only []
            split
            · exact audioSeqs_sendMessage c (.start ctx.config) false
            · rfl
      · refine Or.inl ?_
        simp only [SpeakState.step, SpeakState.startTimeoutFire]
        cases hc : st.client with
        | none => rfl
        | some c =>
            simp only []
            split <;> rfl
  | pressNewSession =>
      left
      constructor
      · simp only [SpeakState.step]
        split <;> rfl
      · exact Or.inr rfl
  | pressTryAgain =>
      left
      refine ⟨?_, Or.inl ?_⟩ <;>
        simp only [SpeakState.step] <;>
        split <;> rfl

/-- Two runs separated by an error and a Try-Again reset: the error
reset leaves the counter untouched. -/
def twoRunPrefix : List SpeakEvent :=
  [.pressStart, .ws .opened, .ws (.message (some (.ack "s1" (some 60) []))),
   .audioData "Zmly", .ws .errorEvent, .pressTryAgain,
   .pressStart, .ws .opened, .ws (.message (some (.ack "s2" (some 60) [])))]

/-- Component state at the start of the second recording run. -/
def secondRunState : SpeakState := (SpeakState.init.run speakCtx twoRunPrefix).1

/-- Counterexample to claim C2 as stated: after a first run that
shipped one chunk, an error, and the Try-Again reset, a second
recording run begins; its first audio chunk is sent with sequence
number 2, not 1, because the error-state reset does not clear the
counter — refuting "starting at 1" for every run. -/
theorem C2_counterexample :
    secondRunState.sessionState = .recording ∧
    secondRunState.sequenceNumber = 1 ∧
    audioSeqs (secondRunState.handleAudioData "c2Vj").2 = [2] ∧
    audioSeqs (SpeakState.init.run speakCtx
      (twoRunPrefix ++ [.audioData "c2Vj"])).2 = [1, 2] := by
  refine ⟨by decide, by decide, by decide, by decide⟩

/-- Claim C2 (amended): within any stretch of component history free of
the completed-session reset, the chunks shipped by the data-available
handler carry strictly increasing sequence numbers, consecutively
numbered from the entry counter plus one — so a fresh component numbers
them 1, 2, 3, …; the final counter equals the entry counter plus the
number of chunks shipped; the error-state Try-Again reset leaves the
counter unchanged, so a run that follows it continues the numbering
instead of restarting at 1. -/
theorem C2_sequence (ctx : SpeakCtx) (es : List SpeakEvent) :
    ∀ st : SpeakState, SpeakEvent.pressNewSession ∉ es →
    (audioSeqs (st.run ctx es).2 =
      List.range' (st.sequenceNumber + 1) (audioSeqs (st.run ctx es).2).length ∧
     (st.run ctx es).1.sequenceNumber =
      st.sequenceNumber + (audioSeqs (st.run ctx es).2).length) ∧
    (st.step ctx .pressTryAgain).1.sequenceNumber = st.sequenceNumber := by
  induction es with
  | nil =>
      intro st _
      refine ⟨⟨rfl, rfl⟩, ?_⟩
      simp only [SpeakState.step]
      split <;> rfl
  | cons e rest ih =>
      intro st hmem
      have hne : e ≠ SpeakEvent.pressNewSession := by
        intro hcontra
        exact hmem (by rw [hcontra]; exact List.mem_cons_self _ _)
      have hrest : SpeakEvent.pressNewSession ∉ rest := by
        intro hcontra
        exact hmem (List.mem_cons_of_mem _ hcontra)
      refine ⟨?_, ?_⟩
      · rcases h1 : st.step ctx e with ⟨st1, o1⟩
        rcases h2 : st1.run ctx rest with ⟨st2, o2⟩
        have hrun : st.run ctx (e :: rest) = (st2, o1 ++ o2) := by
          simp only [SpeakState.run, h1, h2]
        rw [hrun]
        have hihr : audioSeqs o2 =
            List.range' (st1.sequenceNumber + 1) (audioSeqs o2).length ∧
            st2.sequenceNumber = st1.sequenceNumber + (audioSeqs o2).length := by
          have h0 := (ih st1 hrest).1
          rw [h2] at h0
          exact h0
        show audioSeqs (o1 ++ o2) =
            List.range' (st.sequenceNumber + 1) (audioSeqs (o1 ++ o2)).length ∧
          st2.sequenceNumber = st.sequenceNumber + (audioSeqs (o1 ++ o2)).length
        rw [audioSeqs_append]
        rcases step_audio_chunks ctx st e with
          ⟨hemp, hpres⟩ | ⟨b, -, hchunk, hseq⟩
        · rw [h1] at hemp hpres
          have hemp2 : audioSeqs o1 = [] := hemp
          have hpres2 : st1.sequenceNumber = st.sequenceNumber := by
            rcases hpres with hp | hp
            · exact hp
            · exact absurd hp hne
          rw [hpres2] at hihr
          rw [hemp2, List.nil_append]
          exact hihr
        · rw [h1] at hchunk hseq
          have hchunk2 : audioSeqs o1 = [st.sequenceNumber + 1] := hchunk
          have hseq2 : st1.sequenceNumber = st.sequenceNumber + 1 := hseq
          rw [hseq2] at hihr
          obtain ⟨hr1, hr2⟩ := hihr
          rw [hchunk2]
          have hlen : ([st.sequenceNumber + 1] ++ audioSeqs o2).length =
              (audioSeqs o2).length + 1 := by simp
          constructor
          · rw [hlen, List.range'_succ, List.singleton_append]
            exact congrArg _ hr1
          · rw [hlen, hr2]
            omega
      · simp only [SpeakState.step]
        split <;> rfl

/-- A straight-line run used to instantiate C2. -/
def simpleRun : List SpeakEvent :=
  [.pressStart, .ws .opened, .ws (.message (some (.ack "s1" (some 60) []))),
   .audioData "YQ==", .audioData "Yg=="]

/-- Witness instantiating C2 on the fresh component over `simpleRun`:
the shipped chunks are numbered consecutively from 1. -/
theorem C2_witness :
    SpeakEvent.pressNewSession ∉ simpleRun ∧
    audioSeqs (SpeakState.init.run speakCtx simpleRun).2 =
      List.range' (SpeakState.init.sequenceNumber + 1)
        (audioSeqs (SpeakState.init.run speakCtx simpleRun).2).length :=
  ⟨by decide,
   ((C2_sequence speakCtx simpleRun SpeakState.init (by decide)).1).1⟩

/-- Concrete final message used by the C3 scenarios. -/
def finalMsg : WSFinalMessage :=
  { session_id := "s1", transcript := "hello", tts_url := none, extras := [] }

/-- Component state after a final message followed by a socket error. -/
def errorAfterFinal : SpeakState :=
  (SpeakState.init.run speakCtx
    [.pressStart, .ws .opened, .ws (.message (some (.final finalMsg))),
     .ws .errorEvent]).1

/-- Counterexample to claim C3 as stated: an error event arriving after
the final message moves the session to the error state while the stored
result stays non-null — a non-null result paired with a non-completed
state, which the claim says no event can produce. -/
theorem C3_counterexample :
    errorAfterFinal.finalResult = some finalMsg ∧
    errorAfterFinal.sessionState = .error := by
  exact ⟨by decide, by decide⟩

/-- Claim C3 (amended): the stored result changes only when a final
message is dispatched (set to that message, with the state moving to
completed at that instant) or when the completed-state reset clears it;
in particular every final message handled with a live client stores its
payload and completes the session — but a later error, processing,
close, or stop event may move the state away from completed while the
result stays non-null, so non-null result does not imply completed. -/
theorem C3_result_state (ctx : SpeakCtx) (st : SpeakState) (e : SpeakEvent)
    (fm : WSFinalMessage) (c : WSClientState) :
    ((st.step ctx e).1.finalResult = st.finalResult ∨
      (∃ m, e = .ws (.message (some (.final m))) ∧
        (st.step ctx e).1.finalResult = some m ∧
        (st.step ctx e).1.sessionState = .completed) ∨
      (e = .pressNewSession ∧ (st.step ctx e).1.finalResult = none)) ∧
    (st.client = some c →
      (st.step ctx (.ws (.message (some (.final fm))))).1.finalResult =
        some fm ∧
      (st.step ctx (.ws (.message (some (.final fm))))).1.sessionState =
        .completed) := by
  constructor
  · cases e with
    | ws ev =>
        cases hc2 : st.client with
        | none => left; simp only [SpeakState.step, SpeakState.wsDeliver, hc2]
        | some c2 =>
            cases ev with
            | opened =>
                left
                simp only [SpeakState.step, SpeakState.wsDeliver, hc2]
                rfl
            | close code =>
                left
                simp only [SpeakState.step, SpeakState.wsDeliver, hc2,
                  WSClientState.handleEvent, WSClientState.attemptReconnect]
                split <;>
                  (simp only [SpeakState.applyEffs, SpeakState.applyEff,
                    SpeakState.onCloseCb]
                   split <;> rfl)
            | errorEvent =>
                left
                simp only [SpeakState.step, SpeakState.wsDeliver, hc2]
                rfl
            | message frame =>
                cases frame with
                | none =>
                    left
                    simp only [SpeakState.step, SpeakState.wsDeliver, hc2]
                    rfl
                | some m =>
                    cases m with
                    | final fm2 =>
                        right; left
                        refine ⟨fm2, rfl, ?_, ?_⟩ <;>
                          (simp only [SpeakState.step, SpeakState.wsDeliver,
                            hc2]
                           rfl)
                    | ack sid md ex =>
                        left
                        simp only [SpeakState.step, SpeakState.wsDeliver, hc2]
                        rfl
                    | interim sid t ex =>
                        left
                        simp only [SpeakState.step, SpeakState.wsDeliver, hc2]
                        rfl
                    | processing sid stg ex =>
                        left
                        simp only [SpeakState.step, SpeakState.wsDeliver, hc2]
                        rfl
                    | error cd msg ex =>
                        left
                        simp only [SpeakState.step, SpeakState.wsDeliver, hc2]
                        rfl
                    | unknown name ex =>
                        left
                        simp only [SpeakState.step, SpeakState.wsDeliver, hc2]
                        rfl
    | tick =>
        left
        simp only [SpeakState.step, SpeakState.timerTick]
        split
        · split
          · have h := congrArg SpeakState.finalResult (handleStopSession_fst st)
            exact h
          · rfl
        · rfl
    | audioData b =>
        left
        simp only [SpeakState.step, SpeakState.handleAudioData]
        cases hc2 : st.client with
        | none => rfl
        | some c2 =>
            simp only []
            split <;> rfl
    | pressStart =>
        left
        simp only [SpeakState.step, SpeakState.handleStartSession,
          SpeakState.setupWebSocket]
        split
        · rfl
        · split <;> rfl
    | pressStop =>
        left
        simp only [SpeakState.step]
        split
        · have h := congrArg SpeakState.finalResult (handleStopSession_fst st)
          exact h
        · rfl
    | startTimeout =>
        left
        simp only [SpeakState.step, SpeakState.startTimeoutFire]
        cases hc2 : st.client with
        | none => rfl
        | some c2 =>
            simp only []
            split <;> rfl
    | pressNewSession =>
        simp only [SpeakState.step]
        split
        · right; right; exact ⟨by trivial, rfl⟩
        · left; rfl
    | pressTryAgain =>
        left
        simp only [SpeakState.step]
        split <;> rfl
  · intro hc
    constructor <;>
      (simp only [SpeakState.step, SpeakState.wsDeliver, hc]
       rfl)

/-- Client reached by `connect("tok")` and the open event. -/
def connectedClient : WSClientState :=
  ((WSClientState.init.connect "tok" none false).1.handleEvent .opened).1

/-- Witness instantiating C3 on the connected component: the final
message stores its payload and completes the session. -/
theorem C3_witness :
    connectedSession.client = some connectedClient ∧
    (connectedSession.step speakCtx
      (.ws (.message (some (.final finalMsg))))).1.finalResult =
        some finalMsg ∧
    (connectedSession.step speakCtx
      (.ws (.message (some (.final finalMsg))))).1.sessionState =
        .completed :=
  ⟨by decide,
   ((C3_result_state speakCtx connectedSession .tick finalMsg
      connectedClient).2 (by decide)).1,
   ((C3_result_state speakCtx connectedSession .tick finalMsg
      connectedClient).2 (by decide)).2⟩

end LearnEnglish
